import Mathlib

/-!
Shallow embedding of the migration-readiness core of the aws2openstack
repository: the catalog metadata normalizer (`GlueCatalogAssessor._parse_table`),
the readiness classifier (`GlueCatalogAssessor._assess_migration_readiness`),
the assessment aggregator (`GlueCatalogAssessor.run_assessment`), and the
assessment diff engine (`compare_assessments_impl` in the MCP tools module).

Strings are modelled as Lean `String`, optional floats as `Option ℚ`
(exact arithmetic; the claims under study are about which values enter the
sum, not about float rounding), absent dictionary keys as `Option` with the
`.getD` defaults the Python code applies.
-/

namespace Aws2OpenStack

/-- `pat` occurs as a contiguous sublist of `s` (helper for Python's
`pat in s` substring test on strings, applied to their character lists). -/
def charsContain (pat : List Char) : List Char → Bool
  | [] => pat.isEmpty
  | c :: rest => pat.isPrefixOf (c :: rest) || charsContain pat rest

/-- Python's `pat in s` substring containment on strings. -/
def strContains (s pat : String) : Bool :=
  charsContain pat.data s.data

/-- Python's `s.startswith(pat)` (computed on the character lists, which is
extensionally `String.startsWith` but reduces in the kernel). -/
def strStartsWith (s pat : String) : Bool :=
  pat.data.isPrefixOf s.data

/-- Python's `s.upper()` (ASCII case mapping on the character list). -/
def strToUpper (s : String) : String :=
  ⟨s.data.map Char.toUpper⟩

/-- Python's `s.lower()` (ASCII case mapping on the character list). -/
def strToLower (s : String) : String :=
  ⟨s.data.map Char.toLower⟩

/-- A raw Glue table record as consumed by `_parse_table`: the fields the
parser reads from the nested `table_dict`, with `Option` for keys that the
Python code fetches via `.get` with a default. -/
structure RawTable where
  name : String
  location : Option String
  columns : List String
  partitionKeys : List String
  tableType : Option String
  inputFormat : Option String
  deriving Repr, DecidableEq

/-- The `GlueTable` pydantic model: normalized table descriptor.
(`last_updated` is omitted: no claim under study mentions it.) -/
structure GlueTable where
  database_name : String
  table_name : String
  table_format : String
  storage_location : String
  estimated_size_gb : Option ℚ
  partition_keys : List String
  column_count : Nat
  is_iceberg : Bool
  migration_readiness : String
  notes : List String
  deriving Repr, DecidableEq

/-- The `GlueDatabase` pydantic model. -/
structure GlueDatabase where
  database_name : String
  description : Option String
  location_uri : Option String
  table_count : Nat
  deriving Repr, DecidableEq

/-- The `AssessmentSummary` pydantic model. -/
structure AssessmentSummary where
  total_databases : Nat
  total_tables : Nat
  iceberg_tables : Nat
  migration_ready : Nat
  needs_conversion : Nat
  unknown : Nat
  total_estimated_size_gb : ℚ
  deriving Repr, DecidableEq

/-- `GlueCatalogAssessor._assess_migration_readiness`: pure readiness
classifier, transcribed branch by branch from the Python source. -/
def assessMigrationReadiness (is_iceberg : Bool) (table_format storage_location : String) :
    String × List String :=
  if is_iceberg then
    if strStartsWith storage_location "s3://" then
      ("READY", [])
    else
      ("UNKNOWN", ["Non-S3 storage location"])
  else if table_format == "PARQUET" || table_format == "ORC" || table_format == "AVRO" then
    ("NEEDS_CONVERSION", [table_format ++ " format requires conversion to Iceberg"])
  else if table_format == "UNKNOWN" then
    ("UNKNOWN", ["Unknown table format"])
  else
    ("UNKNOWN", ["Unsupported format: " ++ table_format])

/-- `GlueCatalogAssessor._parse_table`: normalizes a raw table record into a
`GlueTable`, resolving format and readiness.  Mirrors the Python defaults:
missing `Location` ↦ `""`, missing `table_type` ↦ `""`, missing
`InputFormat` ↦ `""`; `estimated_size_gb` is left absent (`none`), exactly as
the source does. -/
def parseTable (database_name : String) (t : RawTable) : GlueTable :=
  let storage_location := t.location.getD ""
  let column_count := t.columns.length
  let table_type := strToUpper (t.tableType.getD "")
  let fmt : String × Bool :=
    if table_type == "ICEBERG" then
      ("ICEBERG", true)
    else
      let input_format := t.inputFormat.getD ""
      if strContains (strToLower input_format) "parquet" then ("PARQUET", false)
      else if strContains (strToLower input_format) "orc" then ("ORC", false)
      else ("UNKNOWN", false)
  let estimated_size_gb : Option ℚ := none
  let assessed := assessMigrationReadiness fmt.2 fmt.1 storage_location
  { database_name := database_name
    table_name := t.name
    table_format := fmt.1
    storage_location := storage_location
    estimated_size_gb := estimated_size_gb
    partition_keys := t.partitionKeys
    column_count := column_count
    is_iceberg := fmt.2
    migration_readiness := assessed.1
    notes := assessed.2 }

/-- A raw Glue database together with the raw tables the catalog lists for
it (the paginated `get_databases` / `get_tables` responses, flattened). -/
structure RawDatabase where
  name : String
  description : Option String
  locationUri : Option String
  rawTables : List RawTable
  deriving Repr, DecidableEq

/-- The `AssessmentReport` pydantic model (metadata omitted: timestamps,
region and account id play no part in any claim). -/
structure AssessmentReport where
  summary : AssessmentSummary
  databases : List GlueDatabase
  tables : List GlueTable
  deriving Repr, DecidableEq

/-- The summary-statistics block of `run_assessment`: counters computed in a
pass over the flattened table list, transcribed from the Python sums. -/
def computeSummary (databases : List GlueDatabase) (all_tables : List GlueTable) :
    AssessmentSummary :=
  let iceberg_count := all_tables.countP (fun t => t.is_iceberg)
  let ready_count := all_tables.countP (fun t => t.migration_readiness == "READY")
  let needs_conversion_count :=
    all_tables.countP (fun t => t.migration_readiness == "NEEDS_CONVERSION")
  let unknown_count := all_tables.countP (fun t => t.migration_readiness == "UNKNOWN")
  let total_size_gb := (all_tables.filterMap (fun t => t.estimated_size_gb)).sum
  { total_databases := databases.length
    total_tables := all_tables.length
    iceberg_tables := iceberg_count
    migration_ready := ready_count
    needs_conversion := needs_conversion_count
    unknown := unknown_count
    total_estimated_size_gb := total_size_gb }

/-- `GlueCatalogAssessor.run_assessment` on a given catalog listing: parses
every table of every database, fills in each database's table count, and
computes the summary. -/
def runAssessment (catalog : List RawDatabase) : AssessmentReport :=
  let databases : List GlueDatabase := catalog.map (fun db =>
    { database_name := db.name
      description := db.description
      location_uri := db.locationUri
      table_count := db.rawTables.length })
  let all_tables : List GlueTable :=
    catalog.flatMap (fun db => db.rawTables.map (parseTable db.name))
  { summary := computeSummary databases all_tables
    databases := databases
    tables := all_tables }

/-! ### The assessment diff engine (`compare_assessments_impl`) -/

/-- A persisted table row as read by the diff engine: the two fields it
compares plus the fields it deliberately ignores (size, partition keys,
column count). -/
structure DiffTable where
  table_name : String
  table_format : String
  migration_readiness : String
  estimated_size_gb : Option ℚ
  partition_keys : List String
  column_count : Nat
  deriving Repr, DecidableEq

/-- A persisted database row with its tables, as returned by
`repository.get_glue_databases(..., include_tables=True)`. -/
structure DiffDatabase where
  database_name : String
  tables : List DiffTable
  deriving Repr, DecidableEq

/-- One entry of `tables_modified` in the comparison output. -/
structure ModRecord where
  name : String
  format_changed : Bool
  old_format : String
  new_format : String
  readiness_changed : Bool
  old_readiness : String
  new_readiness : String
  deriving Repr, DecidableEq

/-- The set of database names of one assessment (`{db.database_name for db}`,
a Python set). -/
def dbNames (dbs : List DiffDatabase) : Finset String :=
  (dbs.map (fun db => db.database_name)).toFinset

/-- Python's `next(db for db in databases if db.database_name == name)`:
first database with the given name (a placeholder empty database when the
name is absent; the code only performs this lookup for names known present). -/
def lookupDb (dbs : List DiffDatabase) (name : String) : DiffDatabase :=
  (dbs.find? (fun db => db.database_name == name)).getD
    { database_name := name, tables := [] }

/-- The table-name list of one database's tables. -/
def tableNames (db : DiffDatabase) : List String :=
  db.tables.map (fun t => t.table_name)

/-- Python's `next(t for t in db.tables if t.table_name == name)`: first
table with the given name (placeholder when absent; only looked up for
names known present). -/
def lookupTable (ts : List DiffTable) (name : String) : DiffTable :=
  (ts.find? (fun t => t.table_name == name)).getD
    { table_name := name, table_format := "", migration_readiness := ""
      estimated_size_gb := none, partition_keys := [], column_count := 0 }

/-- The common database names (`db_names1 & db_names2`), as a deterministic
duplicate-free list; its membership is that of the Python set. -/
def commonDbList (dbs1 dbs2 : List DiffDatabase) : List String :=
  ((dbs1.map (fun db => db.database_name)).dedup).filter
    (fun n => decide (n ∈ dbs2.map (fun db => db.database_name)))

/-- The common table names of two table lists (`table_names1 & table_names2`),
as a deterministic duplicate-free list. -/
def commonTableList (ts1 ts2 : List DiffTable) : List String :=
  ((ts1.map (fun t => t.table_name)).dedup).filter
    (fun n => decide (n ∈ ts2.map (fun t => t.table_name)))

/-- `databases_added = db_names2 - db_names1` (a Python set). -/
def databasesAdded (dbs1 dbs2 : List DiffDatabase) : Finset String :=
  dbNames dbs2 \ dbNames dbs1

/-- `databases_removed = db_names1 - db_names2` (a Python set). -/
def databasesRemoved (dbs1 dbs2 : List DiffDatabase) : Finset String :=
  dbNames dbs1 \ dbNames dbs2

/-- The `tables_added` list: for each common database, the qualified names
`"{database}.{table}"` of tables present in the second assessment's version
but not the first's. -/
def tablesAdded (dbs1 dbs2 : List DiffDatabase) : List String :=
  (commonDbList dbs1 dbs2).flatMap (fun db_name =>
    (((tableNames (lookupDb dbs2 db_name)).dedup).filter
        (fun t => decide (t ∉ tableNames (lookupDb dbs1 db_name)))).map
      (fun t => db_name ++ "." ++ t))

/-- The `tables_removed` list: qualified names of tables present in the first
assessment's version of a common database but not the second's. -/
def tablesRemoved (dbs1 dbs2 : List DiffDatabase) : List String :=
  (commonDbList dbs1 dbs2).flatMap (fun db_name =>
    (((tableNames (lookupDb dbs1 db_name)).dedup).filter
        (fun t => decide (t ∉ tableNames (lookupDb dbs2 db_name)))).map
      (fun t => db_name ++ "." ++ t))

/-- The modification record the diff engine appends for one table name of one
common database, built from the two looked-up versions. -/
def mkModRecord (db_name table_name : String) (t1 t2 : DiffTable) : ModRecord :=
  { name := db_name ++ "." ++ table_name
    format_changed := t1.table_format != t2.table_format
    old_format := t1.table_format
    new_format := t2.table_format
    readiness_changed := t1.migration_readiness != t2.migration_readiness
    old_readiness := t1.migration_readiness
    new_readiness := t2.migration_readiness }

/-- The inner loop over `table_names1 & table_names2` of one common database:
append a modification record when format or readiness differs. -/
def modsForDb (db_name : String) (ts1 ts2 : List DiffTable) : List ModRecord :=
  (commonTableList ts1 ts2).filterMap (fun table_name =>
    let t1 := lookupTable ts1 table_name
    let t2 := lookupTable ts2 table_name
    if t1.table_format != t2.table_format
        || t1.migration_readiness != t2.migration_readiness then
      some (mkModRecord db_name table_name t1 t2)
    else
      none)

/-- The `tables_modified` list over all common databases. -/
def tablesModified (dbs1 dbs2 : List DiffDatabase) : List ModRecord :=
  (commonDbList dbs1 dbs2).flatMap (fun db_name =>
    modsForDb db_name (lookupDb dbs1 db_name).tables (lookupDb dbs2 db_name).tables)

/-- The `changes` block of a successful comparison. -/
structure DiffChanges where
  databases_added : Finset String
  databases_removed : Finset String
  tables_added : List String
  tables_removed : List String
  tables_modified : List ModRecord
  deriving DecidableEq

/-- A persisted assessment record, reduced to what the diff engine reads. -/
structure Assessment where
  databases : List DiffDatabase
  deriving DecidableEq

/-- `compare_assessments_impl`: looks up both assessments in the repository;
if either lookup fails, returns the failure result (`success: false`, the
exact error string of the source) without comparing anything; otherwise
returns the change-set. -/
def compareAssessments (repo : String → Option Assessment) (id1 id2 : String) :
    Except String DiffChanges :=
  match repo id1, repo id2 with
  | some a1, some a2 =>
      Except.ok
        { databases_added := databasesAdded a1.databases a2.databases
          databases_removed := databasesRemoved a1.databases a2.databases
          tables_added := tablesAdded a1.databases a2.databases
          tables_removed := tablesRemoved a1.databases a2.databases
          tables_modified := tablesModified a1.databases a2.databases }
  | _, _ => Except.error "One or both assessments not found"

/-! ### Concrete sample values (used by witnesses and counterexamples) -/

/-- A raw Iceberg table on S3 (spec §8 scenario 1). -/
def rawIceberg : RawTable :=
  { name := "t1"
    location := some "s3://bucket/data"
    columns := ["c1", "c2"]
    partitionKeys := []
    tableType := some "iceberg"
    inputFormat := none }

/-- A table descriptor carrying a readiness value outside the three known
enum values (can only arise outside the live classifier path). -/
def invalidReadinessTable : GlueTable :=
  { database_name := "db"
    table_name := "t"
    table_format := "ICEBERG"
    storage_location := "s3://b"
    estimated_size_gb := none
    partition_keys := []
    column_count := 0
    is_iceberg := true
    migration_readiness := "INVALID"
    notes := [] }

/-- Baseline version of a persisted table: Iceberg, ready (spec §8
scenario 5). -/
def sampleTableA : DiffTable :=
  { table_name := "t1"
    table_format := "ICEBERG"
    migration_readiness := "READY"
    estimated_size_gb := some 100
    partition_keys := []
    column_count := 3 }

/-- Comparison version of the same table: format changed to PARQUET, other
non-diffed fields (size, partition keys) changed too. -/
def sampleTableB : DiffTable :=
  { table_name := "t1"
    table_format := "PARQUET"
    migration_readiness := "READY"
    estimated_size_gb := some 50
    partition_keys := ["p"]
    column_count := 3 }

/-- Baseline database for the diff witnesses. -/
def sampleDbA : DiffDatabase :=
  { database_name := "db1", tables := [sampleTableA] }

/-- Comparison database for the diff witnesses. -/
def sampleDbB : DiffDatabase :=
  { database_name := "db1", tables := [sampleTableB] }

/-- A repository with no persisted assessments. -/
def emptyRepo : String → Option Assessment :=
  fun _ => none

/-- A one-database catalog listing holding the raw Iceberg sample. -/
def sampleRawDb : RawDatabase :=
  { name := "db"
    description := none
    locationUri := none
    rawTables := [rawIceberg] }

/-! ### Helper lemmas -/

theorem assess_fst_cases (ii : Bool) (tf loc : String) :
    (assessMigrationReadiness ii tf loc).1 = "READY" ∨
    (assessMigrationReadiness ii tf loc).1 = "NEEDS_CONVERSION" ∨
    (assessMigrationReadiness ii tf loc).1 = "UNKNOWN" := by
  unfold assessMigrationReadiness
  cases ii with
  | true => cases h : strStartsWith loc "s3://" <;> simp [h]
  | false =>
    by_cases hp : tf = "PARQUET"
    · simp [hp]
    · by_cases ho : tf = "ORC"
      · simp [ho]
      · by_cases ha : tf = "AVRO"
        · simp [ha]
        · by_cases hu : tf = "UNKNOWN" <;> simp [hp, ho, ha, hu]

theorem assess_false_fst_ne_ready (tf loc : String) :
    (assessMigrationReadiness false tf loc).1 ≠ "READY" := by
  unfold assessMigrationReadiness
  by_cases hp : tf = "PARQUET"
  · simp [hp]
  · by_cases ho : tf = "ORC"
    · simp [ho]
    · by_cases ha : tf = "AVRO"
      · simp [ha]
      · by_cases hu : tf = "UNKNOWN" <;> simp [hp, ho, ha, hu]

theorem parseTable_migration_readiness_eq (db : String) (rt : RawTable) :
    (parseTable db rt).migration_readiness =
      (assessMigrationReadiness (parseTable db rt).is_iceberg
        (parseTable db rt).table_format (parseTable db rt).storage_location).1 :=
  rfl

theorem parseTable_readiness_cases (db : String) (rt : RawTable) :
    (parseTable db rt).migration_readiness = "READY" ∨
    (parseTable db rt).migration_readiness = "NEEDS_CONVERSION" ∨
    (parseTable db rt).migration_readiness = "UNKNOWN" := by
  rw [parseTable_migration_readiness_eq]
  exact assess_fst_cases _ _ _

theorem runAssessment_tables_readiness (catalog : List RawDatabase) :
    ∀ t ∈ (runAssessment catalog).tables,
      t.migration_readiness = "READY" ∨
      t.migration_readiness = "NEEDS_CONVERSION" ∨
      t.migration_readiness = "UNKNOWN" := by
  intro t ht
  simp only [runAssessment, List.mem_flatMap, List.mem_map] at ht
  obtain ⟨db, _, rt, _, rfl⟩ := ht
  exact parseTable_readiness_cases _ _

theorem countP_three_partition (ts : List GlueTable)
    (h : ∀ t ∈ ts,
      t.migration_readiness = "READY" ∨
      t.migration_readiness = "NEEDS_CONVERSION" ∨
      t.migration_readiness = "UNKNOWN") :
    ts.countP (fun t => t.migration_readiness == "READY") +
    ts.countP (fun t => t.migration_readiness == "NEEDS_CONVERSION") +
    ts.countP (fun t => t.migration_readiness == "UNKNOWN") = ts.length := by
  induction ts with
  | nil => simp
  | cons t ts ih =>
    have ht := h t (List.mem_cons_self t ts)
    have hts := ih (fun x hx => h x (List.mem_cons_of_mem t hx))
    rcases ht with h1 | h1 | h1 <;>
      simp only [List.countP_cons, List.length_cons, h1] <;>
      simp <;> omega

theorem sum_filterMap_size (ts : List GlueTable) :
    (ts.filterMap (fun t => t.estimated_size_gb)).sum =
    (ts.map (fun t => t.estimated_size_gb.getD 0)).sum := by
  induction ts with
  | nil => rfl
  | cons t ts ih => cases h : t.estimated_size_gb <;> simp [List.filterMap_cons, h, ih]

theorem parse_ready_iceberg (dbname : String) (rt : RawTable) :
    (parseTable dbname rt).migration_readiness = "READY" →
    (parseTable dbname rt).is_iceberg = true := by
  intro h
  rw [parseTable_migration_readiness_eq] at h
  cases hb : (parseTable dbname rt).is_iceberg with
  | true => rfl
  | false =>
    rw [hb] at h
    exact absurd h (assess_false_fst_ne_ready _ _)

theorem mem_commonDbList (A B : List DiffDatabase) (n : String) :
    n ∈ commonDbList A B ↔
      (n ∈ A.map (fun db => db.database_name) ∧ n ∈ B.map (fun db => db.database_name)) := by
  simp [commonDbList, List.mem_filter, List.mem_dedup]

theorem mem_commonTableList (ts1 ts2 : List DiffTable) (n : String) :
    n ∈ commonTableList ts1 ts2 ↔
      (n ∈ ts1.map (fun t => t.table_name) ∧ n ∈ ts2.map (fun t => t.table_name)) := by
  simp [commonTableList, List.mem_filter, List.mem_dedup]

/-! ### Claim theorems -/

/-- C1: the readiness classifier is total over the three readiness values and
follows the five-branch decision table top-to-bottom with first match
winning: Iceberg on S3 gives (READY, []); Iceberg elsewhere gives
(UNKNOWN, ["Non-S3 storage location"]); PARQUET/ORC/AVRO give
(NEEDS_CONVERSION, ["<FORMAT> format requires conversion to Iceberg"]);
UNKNOWN gives (UNKNOWN, ["Unknown table format"]); anything else gives
(UNKNOWN, ["Unsupported format: <FORMAT>"]). -/
theorem assess_decision_table (ii : Bool) (tf loc : String) :
    ((assessMigrationReadiness ii tf loc).1 = "READY" ∨
     (assessMigrationReadiness ii tf loc).1 = "NEEDS_CONVERSION" ∨
     (assessMigrationReadiness ii tf loc).1 = "UNKNOWN") ∧
    (ii = true → strStartsWith loc "s3://" = true →
      assessMigrationReadiness ii tf loc = ("READY", [])) ∧
    (ii = true → strStartsWith loc "s3://" = false →
      assessMigrationReadiness ii tf loc = ("UNKNOWN", ["Non-S3 storage location"])) ∧
    (ii = false → (tf = "PARQUET" ∨ tf = "ORC" ∨ tf = "AVRO") →
      assessMigrationReadiness ii tf loc =
        ("NEEDS_CONVERSION", [tf ++ " format requires conversion to Iceberg"])) ∧
    (ii = false → ¬(tf = "PARQUET" ∨ tf = "ORC" ∨ tf = "AVRO") → tf = "UNKNOWN" →
      assessMigrationReadiness ii tf loc = ("UNKNOWN", ["Unknown table format"])) ∧
    (ii = false → ¬(tf = "PARQUET" ∨ tf = "ORC" ∨ tf = "AVRO") → tf ≠ "UNKNOWN" →
      assessMigrationReadiness ii tf loc = ("UNKNOWN", ["Unsupported format: " ++ tf])) := by
  refine ⟨assess_fst_cases ii tf loc, ?_⟩
  unfold assessMigrationReadiness
  cases ii with
  | true =>
    cases h : strStartsWith loc "s3://" <;> simp [h]
  | false =>
    by_cases hp : tf = "PARQUET"
    · simp [hp]
    · by_cases ho : tf = "ORC"
      · simp [ho]
      · by_cases ha : tf = "AVRO"
        · simp [ha]
        · by_cases hu : tf = "UNKNOWN" <;> simp [hp, ho, ha, hu]

/-- Witness for C1: the decision table evaluated on concrete inputs for the
first and third branches. -/
theorem assess_decision_table_witness :
    assessMigrationReadiness true "ICEBERG" "s3://bucket/x" = ("READY", []) ∧
    assessMigrationReadiness false "PARQUET" "s3://bucket/y" =
      ("NEEDS_CONVERSION", ["PARQUET format requires conversion to Iceberg"]) :=
  ⟨(assess_decision_table true "ICEBERG" "s3://bucket/x").2.1 rfl (by decide),
   (assess_decision_table false "PARQUET" "s3://bucket/y").2.2.2.1 rfl (Or.inl rfl)⟩

/-- C2: in every report produced by a full assessment run, the three
readiness counts partition the flattened table list:
`migration_ready + needs_conversion + unknown = total_tables`, and
`total_tables` is the length of the flattened table list. -/
theorem runAssessment_readiness_partition (catalog : List RawDatabase) :
    (runAssessment catalog).summary.migration_ready +
    (runAssessment catalog).summary.needs_conversion +
    (runAssessment catalog).summary.unknown =
    (runAssessment catalog).summary.total_tables ∧
    (runAssessment catalog).summary.total_tables = (runAssessment catalog).tables.length :=
  ⟨countP_three_partition _ (runAssessment_tables_readiness catalog), rfl⟩

/-- C3: the normalizer resolves the table format by priority — explicit
table-type marker equal to ICEBERG (case-insensitively) gives ICEBERG with
`is_iceberg = true`; otherwise a case-insensitive "parquet" substring of the
storage input format gives PARQUET, else an "orc" substring gives ORC, else
UNKNOWN, each with `is_iceberg = false`; and `is_iceberg` holds iff the
resolved format is ICEBERG. -/
theorem parseTable_format_resolution (db : String) (rt : RawTable) :
    (strToUpper (rt.tableType.getD "") = "ICEBERG" →
      (parseTable db rt).table_format = "ICEBERG" ∧ (parseTable db rt).is_iceberg = true) ∧
    (strToUpper (rt.tableType.getD "") ≠ "ICEBERG" →
      (parseTable db rt).is_iceberg = false ∧
      (strContains (strToLower (rt.inputFormat.getD "")) "parquet" = true →
        (parseTable db rt).table_format = "PARQUET") ∧
      (strContains (strToLower (rt.inputFormat.getD "")) "parquet" = false →
        strContains (strToLower (rt.inputFormat.getD "")) "orc" = true →
        (parseTable db rt).table_format = "ORC") ∧
      (strContains (strToLower (rt.inputFormat.getD "")) "parquet" = false →
        strContains (strToLower (rt.inputFormat.getD "")) "orc" = false →
        (parseTable db rt).table_format = "UNKNOWN")) ∧
    ((parseTable db rt).is_iceberg = true ↔ (parseTable db rt).table_format = "ICEBERG") := by
  by_cases hi : strToUpper (rt.tableType.getD "") = "ICEBERG"
  · simp [parseTable, hi]
  · cases hpq : strContains (strToLower (rt.inputFormat.getD "")) "parquet" with
    | true => simp [parseTable, hi, hpq]
    | false =>
      cases horc : strContains (strToLower (rt.inputFormat.getD "")) "orc" with
      | true => simp [parseTable, hi, hpq, horc]
      | false => simp [parseTable, hi, hpq, horc]

/-- Witness for C3: the raw Iceberg sample resolves to ICEBERG with
`is_iceberg = true`. -/
theorem parseTable_format_resolution_witness :
    (parseTable "db" rawIceberg).table_format = "ICEBERG" ∧
    (parseTable "db" rawIceberg).is_iceberg = true :=
  (parseTable_format_resolution "db" rawIceberg).1 (by decide)

/-- C4: a modification record is emitted for a table of a common database iff
the two versions differ in `table_format` or `migration_readiness`, and the
record carries the qualified name, the change flags and the old/new values of
exactly those two fields — so a table identical in them is never reported,
whatever its other fields do. -/
theorem tablesModified_characterization (A B : List DiffDatabase) (r : ModRecord) :
    r ∈ tablesModified A B ↔
      ∃ db_name tn t1 t2,
        db_name ∈ commonDbList A B ∧
        tn ∈ commonTableList (lookupDb A db_name).tables (lookupDb B db_name).tables ∧
        t1 = lookupTable (lookupDb A db_name).tables tn ∧
        t2 = lookupTable (lookupDb B db_name).tables tn ∧
        (t1.table_format ≠ t2.table_format ∨
          t1.migration_readiness ≠ t2.migration_readiness) ∧
        r.name = db_name ++ "." ++ tn ∧
        (r.format_changed = true ↔ t1.table_format ≠ t2.table_format) ∧
        r.old_format = t1.table_format ∧
        r.new_format = t2.table_format ∧
        (r.readiness_changed = true ↔
          t1.migration_readiness ≠ t2.migration_readiness) ∧
        r.old_readiness = t1.migration_readiness ∧
        r.new_readiness = t2.migration_readiness := by
  constructor
  · intro hr
    simp only [tablesModified, List.mem_flatMap] at hr
    obtain ⟨db_name, hdb, hr⟩ := hr
    simp only [modsForDb, List.mem_filterMap] at hr
    obtain ⟨tn, htn, hsome⟩ := hr
    rw [Option.ite_none_right_eq_some] at hsome
    obtain ⟨hcond, hmk⟩ := hsome
    simp only [Bool.or_eq_true, bne_iff_ne] at hcond
    have hreq := Option.some.inj hmk
    subst hreq
    refine ⟨db_name, tn, _, _, hdb, htn, rfl, rfl, hcond, rfl, ?_, rfl, rfl, ?_, rfl, rfl⟩
    · exact bne_iff_ne
    · exact bne_iff_ne
  · intro h
    obtain ⟨db_name, tn, t1, t2, hdb, htn, ht1, ht2, hdiff,
      hname, hfc, hof, hnf, hrc, hor, hnr⟩ := h
    subst ht1 ht2
    obtain ⟨nm, fc, odf, ndf, rc, odr, ndr⟩ := r
    dsimp only at hname hfc hof hnf hrc hor hnr
    subst hname hof hnf hor hnr
    have hfc2 : fc = ((lookupTable (lookupDb A db_name).tables tn).table_format !=
        (lookupTable (lookupDb B db_name).tables tn).table_format) := by
      rw [Bool.eq_iff_iff, bne_iff_ne]
      exact hfc
    have hrc2 : rc = ((lookupTable (lookupDb A db_name).tables tn).migration_readiness !=
        (lookupTable (lookupDb B db_name).tables tn).migration_readiness) := by
      rw [Bool.eq_iff_iff, bne_iff_ne]
      exact hrc
    subst hfc2 hrc2
    simp only [tablesModified, List.mem_flatMap]
    refine ⟨db_name, hdb, ?_⟩
    simp only [modsForDb, List.mem_filterMap]
    refine ⟨tn, htn, ?_⟩
    rw [Option.ite_none_right_eq_some]
    exact ⟨by simpa [Bool.or_eq_true, bne_iff_ne] using hdiff, rfl⟩

/-- Witness for C4: spec §8 scenario 5 — `db1.t1` going from ICEBERG/READY to
PARQUET/READY yields exactly the format-changed record. -/
theorem tablesModified_characterization_witness :
    ({ name := "db1.t1", format_changed := true, old_format := "ICEBERG"
       new_format := "PARQUET", readiness_changed := false
       old_readiness := "READY", new_readiness := "READY" } : ModRecord) ∈
      tablesModified [sampleDbA] [sampleDbB] :=
  (tablesModified_characterization [sampleDbA] [sampleDbB] _).mpr
    ⟨"db1", "t1", _, _, by decide, by decide, rfl, rfl, Or.inl (by decide),
     by decide, by decide, by decide, by decide, by decide, by decide, by decide⟩

/-- C5: the diff is anti-symmetric on its add/remove sets — swapping the two
snapshots swaps `databases_added` with `databases_removed` and, as sets of
qualified names over common databases, `tables_added` with `tables_removed`. -/
theorem compare_diff_antisymm (A B : List DiffDatabase) :
    databasesAdded A B = databasesRemoved B A ∧
    databasesRemoved A B = databasesAdded B A ∧
    (tablesAdded A B).toFinset = (tablesRemoved B A).toFinset ∧
    (tablesRemoved A B).toFinset = (tablesAdded B A).toFinset := by
  refine ⟨rfl, rfl, ?_, ?_⟩
  · ext x
    simp only [List.mem_toFinset, tablesAdded, tablesRemoved, List.mem_flatMap,
      List.mem_map, List.mem_filter, List.mem_dedup, mem_commonDbList,
      decide_eq_true_eq]
    tauto
  · ext x
    simp only [List.mem_toFinset, tablesAdded, tablesRemoved, List.mem_flatMap,
      List.mem_map, List.mem_filter, List.mem_dedup, mem_commonDbList,
      decide_eq_true_eq]
    tauto

/-- C6: the aggregated `total_estimated_size_gb` is the sum of the present
`estimated_size_gb` values; equivalently the sum over all tables with absent
values contributing 0, while every table (with or without a size) counts
toward `total_tables`; over an empty table list the total is 0. -/
theorem summary_total_size_spec (dbs : List GlueDatabase) (ts : List GlueTable) :
    (computeSummary dbs ts).total_estimated_size_gb =
      (ts.filterMap (fun t => t.estimated_size_gb)).sum ∧
    (computeSummary dbs ts).total_estimated_size_gb =
      (ts.map (fun t => t.estimated_size_gb.getD 0)).sum ∧
    (computeSummary dbs ts).total_tables = ts.length ∧
    (computeSummary dbs []).total_estimated_size_gb = 0 :=
  ⟨rfl, sum_filterMap_size ts, rfl, rfl⟩

/-- C7: when either assessment identifier fails to resolve, the comparison
returns the explicit failure result (the source's `success: false` error),
distinguishable from every successful comparison — no partial or zero-valued
diff is ever produced in that case. -/
theorem compareAssessments_notFound (repo : String → Option Assessment) (id1 id2 : String)
    (h : repo id1 = none ∨ repo id2 = none) :
    compareAssessments repo id1 id2 = Except.error "One or both assessments not found" ∧
    ∀ changes : DiffChanges, compareAssessments repo id1 id2 ≠ Except.ok changes := by
  have herr : compareAssessments repo id1 id2 =
      Except.error "One or both assessments not found" := by
    rcases h with h | h
    · unfold compareAssessments
      rw [h]
    · unfold compareAssessments
      rw [h]
      cases repo id1 <;> rfl
  exact ⟨herr, fun changes hc => by rw [herr] at hc; exact Except.noConfusion hc⟩

/-- Witness for C7: comparing against an empty repository fails with the
not-found error. -/
theorem compareAssessments_notFound_witness :
    compareAssessments emptyRepo "a" "b" =
      Except.error "One or both assessments not found" :=
  (compareAssessments_notFound emptyRepo "a" "b" (Or.inl rfl)).1

/-- Counterexample for C8: a table whose readiness is the out-of-enum value
"INVALID" is silently dropped from all three readiness counts while still
counting toward `total_tables` — the aggregation returns a normal summary and
raises no assertion or error. -/
theorem aggregator_silent_drop_counterexample :
    invalidReadinessTable.migration_readiness ∉
      (["READY", "NEEDS_CONVERSION", "UNKNOWN"] : List String) ∧
    (computeSummary [] [invalidReadinessTable]).total_tables = 1 ∧
    (computeSummary [] [invalidReadinessTable]).migration_ready = 0 ∧
    (computeSummary [] [invalidReadinessTable]).needs_conversion = 0 ∧
    (computeSummary [] [invalidReadinessTable]).unknown = 0 := by
  refine ⟨by decide, rfl, rfl, rfl, rfl⟩

/-- C8 (amended): the aggregation never surfaces an out-of-enum readiness
value — it is a total function whose three readiness counters together count
exactly the tables whose readiness is one of the three known values, silently
excluding any other table from the counts. -/
theorem summary_counts_known_readiness (dbs : List GlueDatabase) (ts : List GlueTable) :
    (computeSummary dbs ts).migration_ready + (computeSummary dbs ts).needs_conversion +
      (computeSummary dbs ts).unknown =
    ts.countP (fun t => t.migration_readiness == "READY"
      || t.migration_readiness == "NEEDS_CONVERSION"
      || t.migration_readiness == "UNKNOWN") := by
  show ts.countP _ + ts.countP _ + ts.countP _ = _
  induction ts with
  | nil => rfl
  | cons t ts ih =>
    by_cases h1 : t.migration_readiness = "READY"
    · simp only [List.countP_cons, h1]
      simp
      omega
    · by_cases h2 : t.migration_readiness = "NEEDS_CONVERSION"
      · simp only [List.countP_cons, h2]
        simp [h1, h2]
        omega
      · by_cases h3 : t.migration_readiness = "UNKNOWN"
        · simp only [List.countP_cons, h3]
          simp [h1, h2, h3]
          omega
        · simp only [List.countP_cons]
          simp [h1, h2, h3]
          omega

/-- C9: the live normalizer leaves `estimated_size_gb` absent on every parsed
table, so every full assessment run reports a total estimated size of 0. -/
theorem parse_size_none_total_zero (dbname : String) (rt : RawTable)
    (catalog : List RawDatabase) :
    (parseTable dbname rt).estimated_size_gb = none ∧
    (runAssessment catalog).summary.total_estimated_size_gb = 0 := by
  refine ⟨rfl, ?_⟩
  have hnil : ((runAssessment catalog).tables.filterMap (fun t => t.estimated_size_gb)) = [] := by
    rw [List.filterMap_eq_nil_iff]
    intro t ht
    simp only [runAssessment, List.mem_flatMap, List.mem_map] at ht
    obtain ⟨db, _, rt2, _, rfl⟩ := ht
    rfl
  show ((runAssessment catalog).tables.filterMap (fun t => t.estimated_size_gb)).sum = 0
  rw [hnil]
  rfl

/-- C10: a table is classified READY only when it is Iceberg, hence in every
full assessment run the `migration_ready` count is at most `iceberg_tables`. -/
theorem ready_le_iceberg (dbname : String) (rt : RawTable) (catalog : List RawDatabase) :
    ((parseTable dbname rt).migration_readiness = "READY" →
      (parseTable dbname rt).is_iceberg = true) ∧
    (runAssessment catalog).summary.migration_ready ≤
      (runAssessment catalog).summary.iceberg_tables := by
  refine ⟨parse_ready_iceberg dbname rt, ?_⟩
  show (runAssessment catalog).tables.countP (fun t => t.migration_readiness == "READY") ≤
    (runAssessment catalog).tables.countP (fun t => t.is_iceberg)
  apply List.countP_mono_left
  intro t ht hp
  simp only [runAssessment, List.mem_flatMap, List.mem_map] at ht
  obtain ⟨db, _, rt2, _, rfl⟩ := ht
  exact parse_ready_iceberg _ _ (by simpa using hp)

/-- Witness for C10: the raw Iceberg sample is classified READY and is
Iceberg; the counting bound instantiated on a one-database catalog. -/
theorem ready_le_iceberg_witness :
    (parseTable "db" rawIceberg).is_iceberg = true ∧
    (runAssessment [sampleRawDb]).summary.migration_ready ≤
      (runAssessment [sampleRawDb]).summary.iceberg_tables :=
  ⟨(ready_le_iceberg "db" rawIceberg []).1 (by decide),
   (ready_le_iceberg "db" rawIceberg [sampleRawDb]).2⟩

end Aws2OpenStack
